import Mathlib

/-!
Verification of the fft (find-file-type) core detection pipeline.

This file gives a shallow embedding of src/fft/detector.py and src/fft/types.py.
Filesystem state is passed explicitly through a FileInfo record; the optional
external signature service (python-magic) and the stdlib json parser are
modelled as oracles carried in that record, since both are external
collaborators of the repository code.  Machine floats of the source are
modelled as exact rationals (all confidences in the source are decimal
literals, and the two ratio comparisons are against 0.7).
-/

namespace FFT

/-- The closed category vocabulary, from types.py FileType. -/
inductive FileType where
  | PYTHON | JAVASCRIPT | TYPESCRIPT | JAVA | C | CPP | RUST | GO | PHP | RUBY
  | SHELL | POWERSHELL | BATCH
  | HTML | CSS | XML | JSON | YAML
  | PDF | WORD | EXCEL | POWERPOINT | TEXT | MARKDOWN
  | JPEG | PNG | GIF | SVG | TIFF | BMP | WEBP
  | MP3 | MP4 | AVI | WAV | FLAC
  | ZIP | TAR | GZIP | RAR | SEVEN_ZIP
  | ELF | PE | MACH_O
  | CSV | TSV | LOG | CONFIG
  | BINARY | EMPTY | SYMLINK | DIRECTORY | UNKNOWN
deriving DecidableEq, Repr

/-- The three detection-stage tags, from types.py DetectionMethod. -/
inductive DetectionMethod where
  | FILESYSTEM | MAGIC | LANGUAGE
deriving DecidableEq, Repr

/-- DetectionResult from types.py.  The file_path field of the source is the
input path carried through unchanged; it plays no role in any claim and is
omitted from the embedding. -/
structure DetectionResult where
  file_type : FileType
  test_type : DetectionMethod
  confidence : ℚ
  details : Option String
deriving DecidableEq, Repr

/-- Explicit filesystem/environment state for one classified path.
Fields, in order:
entryExists (the directory entry itself exists, i.e. lexists);
isSymlink (the entry is a symbolic link);
targetExists (for a symlink, whether its target resolves; irrelevant otherwise);
statOk (stat() in the filesystem stage succeeds);
isDir (S_ISDIR of the followed stat);
isRegular (Path.is_file());
ownerExec (the S_IXUSR permission bit);
suffixes (pathlib Path.suffixes of the final name component, e.g. [".tar", ".gz"]);
bytes (the file content as bytes, st_size being its length);
readOk (open+read succeeds, covering the try blocks around reads);
magic (the signature service description, none meaning unavailable or failed);
jsonOk (oracle: whether json.loads accepts the decoded content). -/
structure FileInfo where
  entryExists : Bool
  isSymlink : Bool
  targetExists : Bool
  statOk : Bool
  isDir : Bool
  isRegular : Bool
  ownerExec : Bool
  suffixes : List String
  bytes : List Nat
  readOk : Bool
  magic : Option String
  jsonOk : Bool

/-- Path.exists() follows symbolic links: a dangling symlink does not exist. -/
def pathExists (fi : FileInfo) : Bool :=
  if fi.isSymlink then fi.entryExists && fi.targetExists else fi.entryExists

/-- Containment of a contiguous character run, the semantics of the Python
substring operator (needle `in` hay). -/
def charsContain (hay needle : List Char) : Bool :=
  match hay with
  | [] => needle.isEmpty
  | _ :: t => needle.isPrefixOf hay || charsContain t needle

/-- Python substring test (needle in hay). -/
def strContains (hay needle : String) : Bool :=
  charsContain hay.data needle.data

/-- Python str.lower(), ASCII range (all strings the code lowercases are
ASCII suffixes or signature descriptions). -/
def pyLower (s : String) : String := ⟨s.data.map Char.toLower⟩

/-- Python str.startswith. -/
def pyStartsWith (s pre : String) : Bool := pre.data.isPrefixOf s.data

/-- Python str.endswith. -/
def pyEndsWith (s suf : String) : Bool := suf.data.isSuffixOf s.data

/-- Split on one separator character, keeping empty pieces (the semantics
of Python str.split with an explicit separator); the result is never
empty. -/
def splitOnChar (sep : Char) : List Char → List (List Char)
  | [] => [[]]
  | c :: cs =>
    match splitOnChar sep cs with
    | [] => [[]]
    | h :: t => if c == sep then [] :: h :: t else (c :: h) :: t

/-- Python content.split over a newline. -/
def pySplitNl (s : String) : List String := (splitOnChar '\n' s.data).map fun l => ⟨l⟩

/-- Characters removed by Python str.strip() (ASCII whitespace). -/
def pySpaceChar (c : Char) : Bool :=
  c == ' ' || c == '\t' || c == '\n' || c == '\x0d' || c == '\x0b' || c == '\x0c'

/-- Python str.strip(). -/
def pyStrip (s : String) : String :=
  ⟨((s.data.dropWhile pySpaceChar).reverse.dropWhile pySpaceChar).reverse⟩

/-- Python lines[0] after content.split over a newline: the split list is
never empty, its head is the first line. -/
def firstLine (s : String) : String := (pySplitNl s).headD ""

/-- Characters counted by _is_text_content: c.isprintable() or c.isspace().
Exact on ASCII and latin-1 (non-printables are the C0/C1 controls, DEL,
NBSP counted as space, and soft hyphen); printability above U+00FF is
approximated as true, which no claim depends on. -/
def pyPrintOrSpace (c : Char) : Bool :=
  let n := c.toNat
  (32 ≤ n && n ≤ 126) || (160 < n && n != 173) ||
    [9, 10, 11, 12, 13, 28, 29, 30, 31, 133, 160].contains n

/-- _is_text_content: empty content is text, otherwise the ratio of
printable-or-space characters must exceed 0.7. -/
def is_text_content (content : String) : Bool :=
  if content.data.isEmpty then true
  else
    ((content.data.filter pyPrintOrSpace).length : ℚ) / (content.data.length : ℚ) > 7/10

/-- Bytes counted printable by _appears_binary: printable ASCII plus
tab, LF, CR. -/
def bytePrintable (b : Nat) : Bool :=
  (32 ≤ b && b ≤ 126) || b == 9 || b == 10 || b == 13

/-- _appears_binary: empty data is not binary, otherwise binary when fewer
than 70 percent of the bytes are printable. -/
def appears_binary (data : List Nat) : Bool :=
  if data.isEmpty then false
  else ((data.filter bytePrintable).length : ℚ) / (data.length : ℚ) < 7/10

/-!
A total matcher for the regular expressions of the source.  Every pattern the
detector compiles is linear: a sequence of atoms (a literal character, one of
the classes backslash-w, backslash-s, an enumerated class, or a negated
enumerated class), each repeated exactly once, zero-or-more, or one-or-more,
optionally anchored by a leading caret.  All searches in the source run with
MULTILINE and (for the language catalog) IGNORECASE, so literals compare
case-insensitively and an anchored pattern may match at any line start.
-/

/-- One character atom of a source regular expression. -/
inductive RAtom where
  | lit (c : Char)
  | word
  | wordFirst
  | space
  | oneOf (cs : List Char)
  | noneOf (cs : List Char)
deriving DecidableEq, Repr

/-- An atom with its repetition count. -/
inductive RItem where
  | once (a : RAtom)
  | star (a : RAtom)
  | plus (a : RAtom)
deriving DecidableEq, Repr

/-- A linear regular expression: optional leading caret, then a run of
repeated atoms. -/
structure RPattern where
  anchored : Bool
  items : List RItem
deriving DecidableEq, Repr

/-- Atom versus character, case-insensitively for literals (re.IGNORECASE);
word is the ASCII interpretation of backslash-w, space of backslash-s. -/
def atomMatch (a : RAtom) (c : Char) : Bool :=
  match a with
  | .lit l => l.toLower == c.toLower
  | .word => c.isAlphanum || c == '_'
  | .wordFirst => c.isAlpha || c == '_'
  | .space => c == ' ' || c == '\t' || c == '\n' || c == '\x0d' || c == '\x0b' || c == '\x0c'
  | .oneOf cs => cs.contains c
  | .noneOf cs => !(cs.contains c)

/-- Suffixes of the character list reachable by consuming zero or more
characters accepted by the atom: the candidate continuation points of a
repeated atom. -/
def atomSuffixes (a : RAtom) : List Char → List (List Char)
  | [] => [[]]
  | c :: cs => (c :: cs) :: (if atomMatch a c then atomSuffixes a cs else [])

/-- Does some prefix of the character list match the item sequence?  A
star or plus explores every repetition count, so the Boolean agrees with
the backtracking search of re. -/
def matchItems : List RItem → List Char → Bool
  | [], _ => true
  | .once a :: rest, cs =>
    match cs with
    | [] => false
    | c :: cs2 => atomMatch a c && matchItems rest cs2
  | .star a :: rest, cs => (atomSuffixes a cs).any fun cs2 => matchItems rest cs2
  | .plus a :: rest, cs =>
    match cs with
    | [] => false
    | c :: cs2 => atomMatch a c && (atomSuffixes a cs2).any fun cs3 => matchItems rest cs3

/-- Unanchored search: try a match at every position (re.search). -/
def searchFrom (items : List RItem) : List Char → Bool
  | [] => matchItems items []
  | c :: cs => matchItems items (c :: cs) || searchFrom items cs

/-- Anchored multiline search: try a match at the start of every line
(a caret under re.MULTILINE). -/
def searchLineStarts (items : List RItem) : List Char → Bool → Bool
  | [], atStart => atStart && matchItems items []
  | c :: cs, atStart =>
    (atStart && matchItems items (c :: cs)) || searchLineStarts items cs (c == '\n')

/-- re.search of a source pattern over the whole content. -/
def regexSearch (p : RPattern) (content : String) : Bool :=
  if p.anchored then searchLineStarts p.items content.data true
  else searchFrom p.items content.data

/-- A run of literal atoms, one per character. -/
def lits (s : String) : List RItem := s.data.map fun c => RItem.once (RAtom.lit c)

/-!
The encoding cascade of _read_file_safely: utf-8, utf-8-sig, latin-1, cp1252,
first success wins.  Each decoder is embedded as a total function into
Option, matching the strict (errors raise) behaviour of bytes.decode.
-/

/-- A UTF-8 continuation byte. -/
def utf8Cont (b : Nat) : Bool := 128 ≤ b && b < 192

/-- Strict UTF-8 decoding: rejects stray continuations, overlong forms,
surrogates, truncated sequences and code points beyond U+10FFFF. -/
def utf8DecodeList : List Nat → Option (List Char)
  | [] => some []
  | b :: bs =>
    if b < 128 then
      match utf8DecodeList bs with
      | some cs => some (Char.ofNat b :: cs)
      | none => none
    else if b < 194 then none
    else if b < 224 then
      match bs with
      | b1 :: bs2 =>
        if utf8Cont b1 then
          match utf8DecodeList bs2 with
          | some cs => some (Char.ofNat ((b - 192) * 64 + (b1 - 128)) :: cs)
          | none => none
        else none
      | [] => none
    else if b < 240 then
      match bs with
      | b1 :: b2 :: bs2 =>
        if utf8Cont b1 && utf8Cont b2 then
          let cp := (b - 224) * 4096 + (b1 - 128) * 64 + (b2 - 128)
          if cp < 2048 || (55296 ≤ cp && cp < 57344) then none
          else
            match utf8DecodeList bs2 with
            | some cs => some (Char.ofNat cp :: cs)
            | none => none
        else none
      | _ => none
    else if b < 245 then
      match bs with
      | b1 :: b2 :: b3 :: bs2 =>
        if utf8Cont b1 && utf8Cont b2 && utf8Cont b3 then
          let cp := (b - 240) * 262144 + (b1 - 128) * 4096 + (b2 - 128) * 64 + (b3 - 128)
          if cp < 65536 || 1114111 < cp then none
          else
            match utf8DecodeList bs2 with
            | some cs => some (Char.ofNat cp :: cs)
            | none => none
        else none
      | _ => none
    else none

/-- utf-8-sig: strip a UTF-8 byte order mark when present, then decode
as UTF-8. -/
def utf8SigDecode (bs : List Nat) : Option (List Char) :=
  match bs with
  | 239 :: 187 :: 191 :: rest => utf8DecodeList rest
  | _ => utf8DecodeList bs

/-- latin-1 maps every byte 0..255 directly to the code point of the same
value; it never fails. -/
def latin1DecodeOpt (bs : List Nat) : Option (List Char) :=
  some (bs.map Char.ofNat)

/-- The cp1252 value of one byte: the 0x80..0x9F block is remapped, five of
its bytes are undefined and make the decode fail; all other bytes decode to
themselves. -/
def cp1252Byte (b : Nat) : Option Char :=
  match ([(128, 8364), (130, 8218), (131, 402), (132, 8222), (133, 8230),
          (134, 8224), (135, 8225), (136, 710), (137, 8240), (138, 352),
          (139, 8249), (140, 338), (142, 381), (145, 8216), (146, 8217),
          (147, 8220), (148, 8221), (149, 8226), (150, 8211), (151, 8212),
          (152, 732), (153, 8482), (154, 353), (155, 8250), (156, 339),
          (158, 382), (159, 376)].find? fun p => p.1 == b) with
  | some p => some (Char.ofNat p.2)
  | none =>
    if b == 129 || b == 141 || b == 143 || b == 144 || b == 157 then none
    else some (Char.ofNat b)

/-- cp1252 decoding of a byte run. -/
def cp1252Decode (bs : List Nat) : Option (List Char) :=
  match bs with
  | [] => some []
  | b :: rest =>
    match cp1252Byte b with
    | none => none
    | some c =>
      match cp1252Decode rest with
      | none => none
      | some cs => some (c :: cs)

/-- The encoding cascade of _read_file_safely, first success wins. -/
def cascade (bs : List Nat) : Option (List Char) :=
  match utf8DecodeList bs with
  | some cs => some cs
  | none =>
    match utf8SigDecode bs with
    | some cs => some cs
    | none =>
      match latin1DecodeOpt bs with
      | some cs => some cs
      | none => cp1252Decode bs

/-- The ExtensionTable, from _build_extension_map, in source insertion
order (the order is observable through dict iteration, though lookups are
by key). -/
def extensionMap : List (String × FileType) := [
  (".py", .PYTHON), (".js", .JAVASCRIPT), (".ts", .TYPESCRIPT),
  (".java", .JAVA), (".c", .C), (".cpp", .CPP), (".cxx", .CPP),
  (".cc", .CPP), (".h", .C), (".hpp", .CPP), (".rs", .RUST), (".go", .GO),
  (".php", .PHP), (".rb", .RUBY), (".sh", .SHELL), (".bash", .SHELL),
  (".zsh", .SHELL), (".fish", .SHELL), (".ps1", .POWERSHELL),
  (".bat", .BATCH), (".cmd", .BATCH),
  (".html", .HTML), (".htm", .HTML), (".css", .CSS), (".xml", .XML),
  (".json", .JSON), (".yaml", .YAML), (".yml", .YAML),
  (".pdf", .PDF), (".doc", .WORD), (".docx", .WORD), (".xls", .EXCEL),
  (".xlsx", .EXCEL), (".ppt", .POWERPOINT), (".pptx", .POWERPOINT),
  (".txt", .TEXT), (".md", .MARKDOWN), (".markdown", .MARKDOWN),
  (".jpg", .JPEG), (".jpeg", .JPEG), (".png", .PNG), (".gif", .GIF),
  (".svg", .SVG), (".tif", .TIFF), (".tiff", .TIFF), (".bmp", .BMP),
  (".webp", .WEBP),
  (".mp3", .MP3), (".mp4", .MP4), (".avi", .AVI), (".wav", .WAV),
  (".flac", .FLAC),
  (".zip", .ZIP), (".tar", .TAR), (".gz", .GZIP), (".tar.gz", .GZIP),
  (".tgz", .GZIP), (".rar", .RAR), (".7z", .SEVEN_ZIP),
  (".csv", .CSV), (".tsv", .TSV), (".log", .LOG), (".conf", .CONFIG),
  (".config", .CONFIG), (".ini", .CONFIG), (".cfg", .CONFIG)]

/-- Dictionary lookup in the ExtensionTable (keys are unique). -/
def extLookup (s : String) : Option FileType :=
  (extensionMap.find? fun p => p.1 == s).map fun p => p.2

/-- The ShebangTable, from _build_shebang_map, in source insertion order
(iteration order is significant for the scan). -/
def shebangMap : List (String × FileType) := [
  ("python", .PYTHON), ("node", .JAVASCRIPT), ("bash", .SHELL),
  ("sh", .SHELL), ("zsh", .SHELL), ("fish", .SHELL), ("php", .PHP),
  ("ruby", .RUBY), ("perl", .TEXT)]

/-- The signature-description substrings of _magic_tests, in source
insertion order. -/
def magicMappings : List (String × FileType) := [
  ("pdf", .PDF), ("jpeg", .JPEG), ("png", .PNG), ("gif", .GIF),
  ("zip", .ZIP), ("gzip", .GZIP), ("tar", .TAR), ("rar", .RAR),
  ("elf", .ELF), ("pe32", .PE), ("mach-o", .MACH_O), ("mp3", .MP3),
  ("mp4", .MP4), ("avi", .AVI), ("wav", .WAV), ("html", .HTML),
  ("xml", .XML), ("json", .JSON)]

/-- Python pattern set.  Each line carries the source regular expression in
a comment. -/
def pythonPatterns : List (RPattern × Nat) := [
  -- caret backslash-s* import backslash-s+ backslash-w+
  (⟨true, [.star .space] ++ lits "import" ++ [.plus .space, .plus .word]⟩, 3),
  -- caret backslash-s* from backslash-s+ backslash-w+ backslash-s+ import
  (⟨true, [.star .space] ++ lits "from" ++ [.plus .space, .plus .word, .plus .space] ++
    lits "import"⟩, 3),
  -- caret backslash-s* def backslash-s+ backslash-w+ backslash-s* lparen
  (⟨true, [.star .space] ++ lits "def" ++ [.plus .space, .plus .word, .star .space] ++
    lits "("⟩, 3),
  -- caret backslash-s* class backslash-s+ backslash-w+
  (⟨true, [.star .space] ++ lits "class" ++ [.plus .space, .plus .word]⟩, 3),
  -- if backslash-s+ __name__ backslash-s* == backslash-s* quote __main__ quote
  (⟨false, lits "if" ++ [.plus .space] ++ lits "__name__" ++ [.star .space] ++
    lits "==" ++ [.star .space, .once (.oneOf ['"', '\''])] ++ lits "__main__" ++
    [.once (.oneOf ['"', '\''])]⟩, 5),
  -- caret backslash-s* at-sign backslash-w+   (decorators)
  (⟨true, [.star .space] ++ lits "@" ++ [.plus .word]⟩, 2),
  -- print backslash-s* lparen
  (⟨false, lits "print" ++ [.star .space] ++ lits "("⟩, 2)]

/-- JavaScript pattern set. -/
def javascriptPatterns : List (RPattern × Nat) := [
  -- caret backslash-s* function backslash-s+ backslash-w+ backslash-s* lparen
  (⟨true, [.star .space] ++ lits "function" ++ [.plus .space, .plus .word, .star .space] ++
    lits "("⟩, 3),
  -- caret backslash-s* var backslash-s+ backslash-w+ backslash-s* =
  (⟨true, [.star .space] ++ lits "var" ++ [.plus .space, .plus .word, .star .space] ++
    lits "="⟩, 2),
  -- caret backslash-s* let backslash-s+ backslash-w+ backslash-s* =
  (⟨true, [.star .space] ++ lits "let" ++ [.plus .space, .plus .word, .star .space] ++
    lits "="⟩, 2),
  -- caret backslash-s* const backslash-s+ backslash-w+ backslash-s* =
  (⟨true, [.star .space] ++ lits "const" ++ [.plus .space, .plus .word, .star .space] ++
    lits "="⟩, 2),
  -- console backslash-dot log backslash-s* lparen
  (⟨false, lits "console.log" ++ [.star .space] ++ lits "("⟩, 3),
  -- require backslash-s* lparen quote
  (⟨false, lits "require" ++ [.star .space] ++ lits "(" ++
    [.once (.oneOf ['"', '\''])]⟩, 3),
  -- module backslash-dot exports backslash-s* =
  (⟨false, lits "module.exports" ++ [.star .space] ++ lits "="⟩, 3),
  -- arrow
  (⟨false, lits "=>"⟩, 2)]

/-- Java pattern set. -/
def javaPatterns : List (RPattern × Nat) := [
  (⟨true, [.star .space] ++ lits "public" ++ [.plus .space] ++ lits "class" ++
    [.plus .space, .plus .word]⟩, 5),
  (⟨true, [.star .space] ++ lits "import" ++ [.plus .space] ++ lits "java."⟩, 3),
  (⟨true, [.star .space] ++ lits "package" ++ [.plus .space, .plus .word]⟩, 3),
  (⟨false, lits "public" ++ [.plus .space] ++ lits "static" ++ [.plus .space] ++
    lits "void" ++ [.plus .space] ++ lits "main"⟩, 5),
  (⟨false, lits "System.out.print"⟩, 3),
  (⟨true, [.star .space] ++ lits "@Override"⟩, 2)]

/-- C pattern set. -/
def cPatterns : List (RPattern × Nat) := [
  -- #include backslash-s* < [^>]+ >
  (⟨false, lits "#include" ++ [.star .space] ++ lits "<" ++
    [.plus (.noneOf ['>'])] ++ lits ">"⟩, 3),
  -- #include backslash-s* dquote [^ dquote ]+ dquote
  (⟨false, lits "#include" ++ [.star .space] ++ lits "\"" ++
    [.plus (.noneOf ['"'])] ++ lits "\""⟩, 3),
  (⟨true, [.star .space] ++ lits "int" ++ [.plus .space] ++ lits "main" ++
    [.star .space] ++ lits "("⟩, 4),
  (⟨false, lits "printf" ++ [.star .space] ++ lits "("⟩, 3),
  (⟨false, lits "malloc" ++ [.star .space] ++ lits "("⟩, 2),
  (⟨false, lits "free" ++ [.star .space] ++ lits "("⟩, 2)]

/-- C++ pattern set. -/
def cppPatterns : List (RPattern × Nat) := [
  (⟨false, lits "#include" ++ [.star .space] ++ lits "<" ++
    [.plus (.noneOf ['>'])] ++ lits ">"⟩, 3),
  (⟨false, lits "using" ++ [.plus .space] ++ lits "namespace" ++ [.plus .space] ++
    lits "std"⟩, 4),
  (⟨false, lits "std::"⟩, 3),
  (⟨false, lits "cout" ++ [.star .space] ++ lits "<<"⟩, 3),
  (⟨false, lits "cin" ++ [.star .space] ++ lits ">>"⟩, 3),
  (⟨true, [.star .space] ++ lits "class" ++ [.plus .space, .plus .word]⟩, 3)]

/-- HTML pattern set. -/
def htmlPatterns : List (RPattern × Nat) := [
  (⟨false, lits "<!DOCTYPE" ++ [.plus .space] ++ lits "html>"⟩, 5),
  (⟨false, lits "<html" ++ [.star (.noneOf ['>'])] ++ lits ">"⟩, 4),
  (⟨false, lits "<head" ++ [.star (.noneOf ['>'])] ++ lits ">"⟩, 3),
  (⟨false, lits "<body" ++ [.star (.noneOf ['>'])] ++ lits ">"⟩, 3),
  (⟨false, lits "<div" ++ [.star (.noneOf ['>'])] ++ lits ">"⟩, 2),
  (⟨false, lits "<p" ++ [.star (.noneOf ['>'])] ++ lits ">"⟩, 2)]

/-- CSS pattern set. -/
def cssPatterns : List (RPattern × Nat) := [
  -- [^ lbrace ]+ lbrace [^ rbrace ]+ rbrace
  (⟨false, [.plus (.noneOf ['\x7b']), .once (.lit '\x7b'),
    .plus (.noneOf ['\x7d']), .once (.lit '\x7d')]⟩, 4),
  (⟨false, lits "@media" ++ [.once .space]⟩, 3),
  (⟨false, lits "@import" ++ [.once .space]⟩, 3),
  (⟨false, lits "color" ++ [.star .space] ++ lits ":" ++ [.star .space,
    .plus (.noneOf [';'])] ++ lits ";"⟩, 2),
  (⟨false, lits "background" ++ [.star .space] ++ lits ":" ++ [.star .space,
    .plus (.noneOf [';'])] ++ lits ";"⟩, 2)]

/-- The PatternCatalog, from _build_language_patterns, in source insertion
order (iteration order is the tie-break policy of the content stage). -/
def languagePatterns : List (FileType × List (RPattern × Nat)) := [
  (.PYTHON, pythonPatterns), (.JAVASCRIPT, javascriptPatterns),
  (.JAVA, javaPatterns), (.C, cPatterns), (.CPP, cppPatterns),
  (.HTML, htmlPatterns), (.CSS, cssPatterns)]

/-- The YAML sniffing pattern of _language_tests:
caret [a-zA-Z_][a-zA-Z0-9_]* colon backslash-s*  (MULTILINE, no IGNORECASE;
every class involved is closed under case, so the shared matcher applies). -/
def yamlPattern : RPattern :=
  ⟨true, [.once .wordFirst, .star .word] ++ lits ":" ++ [.star .space]⟩

/-!
The stage functions of FileTypeDetector, state passed explicitly.
-/

/-- Path.suffix: the last suffix, or the empty string. -/
def pathSuffix (fi : FileInfo) : String := fi.suffixes.getLast?.getD ""

/-- The suffix set of the owner-executable rule. -/
def execSuffixes : List String := [".exe", ".dll", ".so", ".app"]

/-- The owner-executable check of _filesystem_tests: executable bit set,
suffix among the four executable suffixes, and the suffix maps in the
ExtensionTable. -/
def execCheck (fi : FileInfo) : Option DetectionResult :=
  let suffix := pyLower (pathSuffix fi)
  if fi.ownerExec && execSuffixes.contains suffix then
    match extLookup suffix with
    | some ft => some ⟨ft, .FILESYSTEM, 0.9, some "Executable file"⟩
    | none => none
  else none

/-- The compound-suffix check of _filesystem_tests: with more than one
suffix, first the concatenation of all suffixes, then the concatenation of
the last two. -/
def multiExtCheck (fi : FileInfo) : Option DetectionResult :=
  if 1 < fi.suffixes.length then
    let combined := pyLower (String.join fi.suffixes)
    match extLookup combined with
    | some ft => some ⟨ft, .FILESYSTEM, 0.8, some ("Extension: " ++ combined)⟩
    | none =>
      let lastTwo := pyLower (String.join (fi.suffixes.drop (fi.suffixes.length - 2)))
      match extLookup lastTwo with
      | some ft => some ⟨ft, .FILESYSTEM, 0.8, some ("Extension: " ++ lastTwo)⟩
      | none => none
  else none

/-- The single-extension check of _filesystem_tests. -/
def singleExtCheck (fi : FileInfo) : Option DetectionResult :=
  let suffix := pyLower (pathSuffix fi)
  match extLookup suffix with
  | some ft => some ⟨ft, .FILESYSTEM, 0.8, some ("Extension: " ++ suffix)⟩
  | none => none

/-- _filesystem_tests: stat, then directory, symlink, empty, executable,
compound suffix, single suffix, first match wins. -/
def filesystem_tests (fi : FileInfo) : Option DetectionResult :=
  if fi.statOk = false then none
  else if fi.isDir then some ⟨.DIRECTORY, .FILESYSTEM, 1, none⟩
  else if fi.isSymlink then some ⟨.SYMLINK, .FILESYSTEM, 1, none⟩
  else if fi.bytes.length = 0 then some ⟨.EMPTY, .FILESYSTEM, 1, none⟩
  else
    match execCheck fi with
    | some r => some r
    | none =>
      match multiExtCheck fi with
      | some r => some r
      | none => singleExtCheck fi

/-- _magic_tests: none when the signature service is unavailable or its
call failed; otherwise match known substrings of the lower-cased
description in table order, then the text and binary fallbacks. -/
def magic_tests (fi : FileInfo) : Option DetectionResult :=
  match fi.magic with
  | none => none
  | some desc =>
    let magicLower := pyLower desc
    match magicMappings.find? fun p => strContains magicLower p.1 with
    | some p => some ⟨p.2, .MAGIC, 0.9, some ("Magic: " ++ desc)⟩
    | none =>
      if strContains magicLower "text" then
        some ⟨.TEXT, .MAGIC, 0.6, some ("Magic: " ++ desc)⟩
      else if strContains magicLower "binary" || strContains magicLower "data" ||
          strContains magicLower "executable" then
        some ⟨.BINARY, .MAGIC, 0.7, some ("Magic: " ++ desc)⟩
      else none

/-- _read_file_safely: none on an I/O failure, otherwise the encoding
cascade over the bytes (only the first 8 KiB when the file exceeds
1 MiB). -/
def read_file_safely (fi : FileInfo) : Option String :=
  if fi.readOk = false then none
  else
    let contentBytes := if 1048576 < fi.bytes.length then fi.bytes.take 8192 else fi.bytes
    match cascade contentBytes with
    | some cs => some ⟨cs⟩
    | none => none

/-- The shebang scan of _language_tests over the stripped first line, in
ShebangTable order; first contained interpreter substring wins. -/
def shebangScan : List (String × FileType) → String → Option DetectionResult
  | [], _ => none
  | (pat, ft) :: rest, shebang =>
    if strContains shebang pat then
      some ⟨ft, .LANGUAGE, 0.9, some ("Shebang: " ++ shebang)⟩
    else shebangScan rest shebang

/-- The weighted pattern scoring loop of _language_tests: for each catalog
entry in order, sum the weights of the matching patterns; the first entry
whose score reaches 3 is returned. -/
def patternScan : List (FileType × List (RPattern × Nat)) → String → Option DetectionResult
  | [], _ => none
  | (ft, pats) :: rest, content =>
    let matched := pats.filter fun p => regexSearch p.1 content
    let score : Nat := (matched.map fun p => p.2).sum
    if 3 ≤ score then
      some ⟨ft, .LANGUAGE, min ((score : ℚ) / 10) 1,
        some ("Language patterns: " ++ toString matched.length ++ " matches")⟩
    else patternScan rest content

/-- The generic text fallback of _language_tests: only for text-like
content; JSON braces plus a successful parse, then the YAML sniff, then the
CSV sniff on the first five lines, then plain TEXT. -/
def textStructure (fi : FileInfo) (content : String) : Option DetectionResult :=
  if is_text_content content then
    let stripped := pyStrip content
    if pyStartsWith stripped "\x7b" && pyEndsWith stripped "\x7d" && fi.jsonOk then
      some ⟨.JSON, .LANGUAGE, 0.8, some "Valid JSON structure"⟩
    else if regexSearch yamlPattern content then
      some ⟨.YAML, .LANGUAGE, 0.7, some "YAML-like structure"⟩
    else if strContains content "," && strContains content "\n" &&
        (((pySplitNl content).take 5).filter fun l => !(pyStrip l == "")).all
          (fun l => strContains l ",") then
      some ⟨.CSV, .LANGUAGE, 0.7, some "CSV-like structure"⟩
    else some ⟨.TEXT, .LANGUAGE, 0.6, none⟩
  else none

/-- _language_tests: undecodable or unreadable content short-circuits to
BINARY; then the shebang check, the weighted pattern scoring, and the
generic text fallback. -/
def language_tests (fi : FileInfo) : Option DetectionResult :=
  match read_file_safely fi with
  | none => some ⟨.BINARY, .LANGUAGE, 0.8, some "Non-text content"⟩
  | some content =>
    match (if pyStartsWith (firstLine content) "#!" then
        shebangScan shebangMap (pyStrip (firstLine content)) else none) with
    | some r => some r
    | none =>
      match patternScan languagePatterns content with
      | some r => some r
      | none => textStructure fi content

/-- The final fallback of detect_file_type: a readable, non-empty regular
file whose 512-byte sample has a null byte or looks binary is BINARY;
everything else is the UNKNOWN default with confidence 0.1. -/
def finalFallback (fi : FileInfo) : DetectionResult :=
  if fi.readOk && fi.isRegular && 0 < fi.bytes.length then
    let sample := fi.bytes.take 512
    if 0 < sample.count 0 || appears_binary sample then
      ⟨.BINARY, .LANGUAGE, 0.8, some "Binary content detected"⟩
    else ⟨.UNKNOWN, .FILESYSTEM, 0.1, none⟩
  else ⟨.UNKNOWN, .FILESYSTEM, 0.1, none⟩

/-- detect_file_type, the classify operation: the not-found short-circuit,
then the three stages in order, then the final fallback. -/
def detect_file_type (fi : FileInfo) : DetectionResult :=
  if pathExists fi = false then ⟨.UNKNOWN, .FILESYSTEM, 1, some "File not found"⟩
  else
    match filesystem_tests fi with
    | some r => r
    | none =>
      match magic_tests fi with
      | some r => r
      | none =>
        match language_tests fi with
        | some r => r
        | none => finalFallback fi

/-- UTF-8 bytes of an ASCII string, for concrete file contents. -/
def strBytes (s : String) : List Nat := s.data.map Char.toNat

/-- The score one catalog entry accumulates on a text: the sum of the
weights of its matching patterns (the loop of _language_tests written as a
filter and a sum). -/
def catScore (pats : List (RPattern × Nat)) (content : String) : Nat :=
  ((pats.filter fun p => regexSearch p.1 content).map fun p => p.2).sum

/-- The number of distinct patterns of one catalog entry matching a text. -/
def catMatchCount (pats : List (RPattern × Nat)) (content : String) : Nat :=
  (pats.filter fun p => regexSearch p.1 content).length

/-!
Concrete fixtures used by counterexamples and witnesses.  FileInfo fields in
order: entryExists, isSymlink, targetExists, statOk, isDir, isRegular,
ownerExec, suffixes, bytes, readOk, magic, jsonOk.
-/

/-- A path that does not exist. -/
def fiMissing : FileInfo :=
  ⟨false, false, true, true, false, true, false, [], [], true, none, false⟩

/-- A dangling symbolic link: the entry exists, its target does not. -/
def fiDangling : FileInfo :=
  ⟨true, true, false, true, false, true, false, [], [104], true, none, false⟩

/-- A regular extensionless file whose read fails with an I/O error. -/
def fiUnreadable : FileInfo :=
  ⟨true, false, true, true, false, true, false, [], [104, 105], false, none, false⟩

/-- A regular extensionless readable file whose whole content is
print('hi'), signature service unavailable. -/
def fiPrintHi : FileInfo :=
  ⟨true, false, true, true, false, true, false, [], strBytes "print('hi')", true, none, false⟩

/-- A regular extensionless readable file whose first line is the python3
env shebang, signature service unavailable. -/
def fiShebang : FileInfo :=
  ⟨true, false, true, true, false, true, false, [],
    strBytes "#!/usr/bin/env python3\nx = 1\n", true, none, false⟩

/-- A non-empty regular file named like archive.tar.gz, no executable
bit. -/
def fiTarGz : FileInfo :=
  ⟨true, false, true, true, false, true, false, [".tar", ".gz"],
    strBytes "fake compressed content", true, none, false⟩

/-- A readable file whose bytes are not valid UTF-8 (latin-1 applies). -/
def fiLatin : FileInfo :=
  ⟨true, false, true, true, false, true, false, [], [255, 104], true, none, false⟩

end FFT

namespace FFT

/-!
General lemmas about the embedded operations, shared by the claim theorems.
-/

/-- Appending to a string of at least three characters cannot produce a
string whose first three characters differ. -/
lemma append_ne_of_head3 (p b s : String) (hlen : 3 ≤ p.data.length)
    (hne : p.data.take 3 ≠ b.data.take 3) : p ++ s ≠ b := by
  intro he
  apply hne
  have h2 : (p.data ++ s.data).take 3 = b.data.take 3 := by
    rw [← String.data_append, he]
  rw [List.take_append_eq_append_take, Nat.sub_eq_zero_of_le hlen, List.take_zero,
    List.append_nil] at h2
  exact h2

/-- Appending two pieces to a string of at least three characters cannot
produce a string whose first three characters differ. -/
lemma append2_ne_of_head3 (p b s t : String) (hlen : 3 ≤ p.data.length)
    (hne : p.data.take 3 ≠ b.data.take 3) : p ++ s ++ t ≠ b := by
  intro he
  apply hne
  have h2 : ((p.data ++ s.data) ++ t.data).take 3 = b.data.take 3 := by
    rw [← String.data_append, ← String.data_append, he]
  have hlen2 : 3 ≤ (p.data ++ s.data).length := by
    rw [List.length_append]
    omega
  rw [List.take_append_eq_append_take, Nat.sub_eq_zero_of_le hlen2, List.take_zero,
    List.append_nil, List.take_append_eq_append_take, Nat.sub_eq_zero_of_le hlen,
    List.take_zero, List.append_nil] at h2
  exact h2

/-- detect_file_type on a non-existing path short-circuits to the fixed
not-found result. -/
lemma detect_not_found (fi : FileInfo) (h : pathExists fi = false) :
    detect_file_type fi = ⟨.UNKNOWN, .FILESYSTEM, 1, some "File not found"⟩ := by
  simp [detect_file_type, h]

/-- The encoding cascade always succeeds: latin-1 accepts every byte
sequence and is tried before cp1252. -/
lemma cascade_isSome (bs : List Nat) : (cascade bs).isSome = true := by
  unfold cascade
  cases h1 : utf8DecodeList bs
  · cases h2 : utf8SigDecode bs <;> simp [latin1DecodeOpt]
  · simp

/-- A readable file always decodes to some text. -/
lemma read_isSome (fi : FileInfo) (h : fi.readOk = true) :
    (read_file_safely fi).isSome = true := by
  unfold read_file_safely
  rw [h]
  simp only [Bool.true_eq_false, if_false]
  have := cascade_isSome (if 1048576 < fi.bytes.length then fi.bytes.take 8192 else fi.bytes)
  cases hc : cascade (if 1048576 < fi.bytes.length then fi.bytes.take 8192 else fi.bytes)
  · rw [hc] at this; simp at this
  · simp

/-- The pattern-scoring loop is the first catalog entry, in iteration
order, whose accumulated score reaches the threshold 3, reported with
confidence min(score/10, 1) and the count of matching patterns. -/
lemma patternScan_eq_find (l : List (FileType × List (RPattern × Nat))) (content : String) :
    patternScan l content =
      (l.find? fun p => decide (3 ≤ catScore p.2 content)).map fun p =>
        ⟨p.1, .LANGUAGE, min ((catScore p.2 content : ℚ) / 10) 1,
          some ("Language patterns: " ++ toString (catMatchCount p.2 content) ++ " matches")⟩ := by
  induction l with
  | nil => rfl
  | cons hd tl ih =>
    obtain ⟨ft, pats⟩ := hd
    simp only [patternScan, List.find?, catScore, catMatchCount] at ih ⊢
    by_cases h : 3 ≤ ((pats.filter fun p => regexSearch p.1 content).map fun p => p.2).sum
    · simp [h]
    · simp [h, ih]

/-- The shebang scan is the first table entry, in table order, whose
interpreter substring occurs in the shebang line. -/
lemma shebangScan_eq_find (l : List (String × FileType)) (s : String) :
    shebangScan l s =
      (l.find? fun p => strContains s p.1).map fun p =>
        ⟨p.2, .LANGUAGE, 0.9, some ("Shebang: " ++ s)⟩ := by
  induction l with
  | nil => rfl
  | cons hd tl ih =>
    obtain ⟨pat, ft⟩ := hd
    by_cases h : strContains s pat
    · simp [shebangScan, List.find?, h]
    · simp [shebangScan, List.find?, h]
      exact ih

/-- The owner-executable branch is dead code: none of its four candidate
suffixes is a key of the ExtensionTable. -/
lemma execCheck_eq_none (fi : FileInfo) : execCheck fi = none := by
  simp only [execCheck]
  by_cases h : (fi.ownerExec && execSuffixes.contains (pyLower (pathSuffix fi))) = true
  · rw [if_pos h]
    have h2 : execSuffixes.contains (pyLower (pathSuffix fi)) = true :=
      ((Bool.and_eq_true _ _).mp h).2
    simp only [execSuffixes, List.contains_cons, List.contains_nil, Bool.or_eq_true,
      beq_iff_eq, Bool.or_false] at h2
    rcases h2 with h1 | h1 | h1 | h1 <;> rw [h1] <;> rfl
  · rw [if_neg h]

/-- Every result of the compound-suffix check names the matched suffix with
confidence 0.8. -/
lemma multiExtCheck_some (fi : FileInfo) (r : DetectionResult)
    (h : multiExtCheck fi = some r) :
    ∃ ft s, r = ⟨ft, .FILESYSTEM, 0.8, some ("Extension: " ++ s)⟩ := by
  simp only [multiExtCheck] at h
  split at h
  · split at h
    · exact ⟨_, _, (Option.some_inj.mp h).symm⟩
    · split at h
      · exact ⟨_, _, (Option.some_inj.mp h).symm⟩
      · exact absurd h (by simp)
  · exact absurd h (by simp)

/-- Every result of the single-suffix check names the matched suffix with
confidence 0.8. -/
lemma singleExtCheck_some (fi : FileInfo) (r : DetectionResult)
    (h : singleExtCheck fi = some r) :
    ∃ ft s, r = ⟨ft, .FILESYSTEM, 0.8, some ("Extension: " ++ s)⟩ := by
  simp only [singleExtCheck] at h
  split at h
  · exact ⟨_, _, (Option.some_inj.mp h).symm⟩
  · exact absurd h (by simp)

/-- Inventory of the filesystem stage: a directory, symlink or empty
result with confidence 1 and no details, or an extension result with
confidence 0.8 (the executable branch being dead code). -/
lemma filesystem_tests_some (fi : FileInfo) (r : DetectionResult)
    (h : filesystem_tests fi = some r) :
    r = ⟨.DIRECTORY, .FILESYSTEM, 1, none⟩ ∨ r = ⟨.SYMLINK, .FILESYSTEM, 1, none⟩ ∨
    r = ⟨.EMPTY, .FILESYSTEM, 1, none⟩ ∨
    ∃ ft s, r = ⟨ft, .FILESYSTEM, 0.8, some ("Extension: " ++ s)⟩ := by
  simp only [filesystem_tests] at h
  split at h
  · exact absurd h (by simp)
  · split at h
    · exact Or.inl (Option.some_inj.mp h).symm
    · split at h
      · exact Or.inr (Or.inl (Option.some_inj.mp h).symm)
      · split at h
        · exact Or.inr (Or.inr (Or.inl (Option.some_inj.mp h).symm))
        · rw [execCheck_eq_none fi] at h
          split at h
          · rename_i heq
            exact absurd heq (by simp [execCheck_eq_none])
          · split at h
            · rename_i heq
              exact Or.inr (Or.inr (Or.inr (by
                obtain ⟨ft, s, hr⟩ := multiExtCheck_some fi _ heq
                exact ⟨ft, s, by rw [← Option.some_inj.mp h, hr]⟩)))
            · exact Or.inr (Or.inr (Or.inr (singleExtCheck_some fi r h)))

/-- Inventory of the signature stage: a mapped category at 0.9, TEXT at
0.6 or BINARY at 0.7, always echoing the description. -/
lemma magic_tests_some (fi : FileInfo) (r : DetectionResult)
    (h : magic_tests fi = some r) :
    ∃ s, (∃ ft, r = ⟨ft, .MAGIC, 0.9, some ("Magic: " ++ s)⟩) ∨
      r = ⟨.TEXT, .MAGIC, 0.6, some ("Magic: " ++ s)⟩ ∨
      r = ⟨.BINARY, .MAGIC, 0.7, some ("Magic: " ++ s)⟩ := by
  simp only [magic_tests] at h
  split at h
  · exact absurd h (by simp)
  · rename_i desc hdesc
    refine ⟨desc, ?_⟩
    split at h
    · exact Or.inl ⟨_, (Option.some_inj.mp h).symm⟩
    · split at h
      · exact Or.inr (Or.inl (Option.some_inj.mp h).symm)
      · split at h
        · exact Or.inr (Or.inr (Option.some_inj.mp h).symm)
        · exact absurd h (by simp)

/-- Inventory of a successful shebang scan. -/
lemma shebangScan_some (l : List (String × FileType)) (s : String) (r : DetectionResult)
    (h : shebangScan l s = some r) :
    ∃ ft, r = ⟨ft, .LANGUAGE, 0.9, some ("Shebang: " ++ s)⟩ := by
  induction l with
  | nil => exact absurd h (by simp [shebangScan])
  | cons hd tl ih =>
    obtain ⟨pat, ft⟩ := hd
    simp only [shebangScan] at h
    split at h
    · exact ⟨ft, (Option.some_inj.mp h).symm⟩
    · exact ih h

/-- Inventory of a successful pattern scan: some category at threshold,
confidence min(score/10, 1), details counting the matches. -/
lemma patternScan_some (l : List (FileType × List (RPattern × Nat))) (c : String)
    (r : DetectionResult) (h : patternScan l c = some r) :
    ∃ (ft : FileType) (sc n : Nat), 3 ≤ sc ∧
      r = ⟨ft, .LANGUAGE, min ((sc : ℚ) / 10) 1,
        some ("Language patterns: " ++ toString n ++ " matches")⟩ := by
  rw [patternScan_eq_find] at h
  rcases ho : l.find? fun p => decide (3 ≤ catScore p.2 c) with _ | p
  · rw [ho] at h; exact absurd h (by simp)
  · rw [ho] at h
    have hp := List.find?_some ho
    simp only [decide_eq_true_eq] at hp
    exact ⟨p.1, catScore p.2 c, catMatchCount p.2 c, hp, (Option.some_inj.mp h).symm⟩

/-- Inventory of the generic text fallback. -/
lemma textStructure_some (fi : FileInfo) (c : String) (r : DetectionResult)
    (h : textStructure fi c = some r) :
    r = ⟨.JSON, .LANGUAGE, 0.8, some "Valid JSON structure"⟩ ∨
    r = ⟨.YAML, .LANGUAGE, 0.7, some "YAML-like structure"⟩ ∨
    r = ⟨.CSV, .LANGUAGE, 0.7, some "CSV-like structure"⟩ ∨
    r = ⟨.TEXT, .LANGUAGE, 0.6, none⟩ := by
  simp only [textStructure] at h
  split at h
  · split at h
    · exact Or.inl (Option.some_inj.mp h).symm
    · split at h
      · exact Or.inr (Or.inl (Option.some_inj.mp h).symm)
      · split at h
        · exact Or.inr (Or.inr (Or.inl (Option.some_inj.mp h).symm))
        · exact Or.inr (Or.inr (Or.inr (Option.some_inj.mp h).symm))
  · exact absurd h (by simp)

/-- Inventory of the content stage: the unreadable/undecodable BINARY
result (only when the read yielded no text), a shebang result, a pattern
result, or a text-fallback result. -/
lemma language_tests_some (fi : FileInfo) (r : DetectionResult)
    (h : language_tests fi = some r) :
    (read_file_safely fi = none ∧ r = ⟨.BINARY, .LANGUAGE, 0.8, some "Non-text content"⟩) ∨
    (∃ ft s, r = ⟨ft, .LANGUAGE, 0.9, some ("Shebang: " ++ s)⟩) ∨
    (∃ (ft : FileType) (sc n : Nat), 3 ≤ sc ∧
      r = ⟨ft, .LANGUAGE, min ((sc : ℚ) / 10) 1,
        some ("Language patterns: " ++ toString n ++ " matches")⟩) ∨
    r = ⟨.JSON, .LANGUAGE, 0.8, some "Valid JSON structure"⟩ ∨
    r = ⟨.YAML, .LANGUAGE, 0.7, some "YAML-like structure"⟩ ∨
    r = ⟨.CSV, .LANGUAGE, 0.7, some "CSV-like structure"⟩ ∨
    r = ⟨.TEXT, .LANGUAGE, 0.6, none⟩ := by
  simp only [language_tests] at h
  split at h
  · rename_i hread
    exact Or.inl ⟨hread, (Option.some_inj.mp h).symm⟩
  · rename_i content hread
    split at h
    · rename_i rs hif
      refine Or.inr (Or.inl ?_)
      by_cases hst : pyStartsWith (firstLine content) "#!" = true
      · rw [if_pos hst] at hif
        obtain ⟨ft, hr⟩ := shebangScan_some _ _ _ hif
        exact ⟨ft, pyStrip (firstLine content), by rw [← Option.some_inj.mp h, hr]⟩
      · rw [if_neg hst] at hif
        exact absurd hif (by simp)
    · split at h
      · rename_i rp hps
        refine Or.inr (Or.inr (Or.inl ?_))
        obtain ⟨ft, sc, n, hsc, hr⟩ := patternScan_some _ _ _ hps
        exact ⟨ft, sc, n, hsc, by rw [← Option.some_inj.mp h, hr]⟩
      · exact Or.inr (Or.inr (Or.inr (textStructure_some _ _ _ h)))

/-- A threshold score gives a confidence in the open-closed unit
interval. -/
lemma pattern_conf_bounds (sc : Nat) (hsc : 3 ≤ sc) :
    0 < min ((sc : ℚ) / 10) 1 ∧ min ((sc : ℚ) / 10) 1 ≤ 1 := by
  constructor
  · apply lt_min
    · have h0 : (0 : ℚ) < sc := by exact_mod_cast Nat.lt_of_lt_of_le (by norm_num) hsc
      positivity
    · norm_num
  · exact min_le_right _ _

/-- Confidence bounds of the filesystem stage. -/
lemma filesystem_tests_conf (fi : FileInfo) (r : DetectionResult)
    (h : filesystem_tests fi = some r) : 0 < r.confidence ∧ r.confidence ≤ 1 := by
  rcases filesystem_tests_some fi r h with hr | hr | hr | ⟨ft, s, hr⟩ <;> subst hr <;> norm_num

/-- Confidence bounds of the signature stage. -/
lemma magic_tests_conf (fi : FileInfo) (r : DetectionResult)
    (h : magic_tests fi = some r) : 0 < r.confidence ∧ r.confidence ≤ 1 := by
  rcases magic_tests_some fi r h with ⟨s, ⟨ft, hr⟩ | hr | hr⟩ <;> subst hr <;> norm_num

/-- Confidence bounds of the content stage. -/
lemma language_tests_conf (fi : FileInfo) (r : DetectionResult)
    (h : language_tests fi = some r) : 0 < r.confidence ∧ r.confidence ≤ 1 := by
  rcases language_tests_some fi r h with ⟨_, hr⟩ | ⟨ft, s, hr⟩ | ⟨ft, sc, n, hsc, hr⟩ |
    hr | hr | hr | hr
  · subst hr; norm_num
  · subst hr; norm_num
  · subst hr; exact pattern_conf_bounds sc hsc
  all_goals subst hr <;> norm_num

/-- Inventory of the whole pipeline: the not-found result, a result of one
of the three stages, or one of the two fallback results. -/
lemma detect_inventory (fi : FileInfo) :
    detect_file_type fi = ⟨.UNKNOWN, .FILESYSTEM, 1, some "File not found"⟩ ∨
    (∃ r, filesystem_tests fi = some r ∧ detect_file_type fi = r) ∨
    (∃ r, magic_tests fi = some r ∧ detect_file_type fi = r) ∨
    (∃ r, language_tests fi = some r ∧ detect_file_type fi = r) ∨
    detect_file_type fi = ⟨.BINARY, .LANGUAGE, 0.8, some "Binary content detected"⟩ ∨
    detect_file_type fi = ⟨.UNKNOWN, .FILESYSTEM, 0.1, none⟩ := by
  unfold detect_file_type
  split
  · exact Or.inl rfl
  · split
    · rename_i r hr
      exact Or.inr (Or.inl ⟨r, hr, rfl⟩)
    · split
      · rename_i r hr
        exact Or.inr (Or.inr (Or.inl ⟨r, hr, rfl⟩))
      · split
        · rename_i r hr
          exact Or.inr (Or.inr (Or.inr (Or.inl ⟨r, hr, rfl⟩)))
        · simp only [finalFallback]
          split
          · split
            · exact Or.inr (Or.inr (Or.inr (Or.inr (Or.inl rfl))))
            · exact Or.inr (Or.inr (Or.inr (Or.inr (Or.inr rfl))))
          · exact Or.inr (Or.inr (Or.inr (Or.inr (Or.inr rfl))))

/-!
The claim theorems.
-/

/-- C1: in the content stage's weighted pattern scoring, for every decoded
text input, the scan walks the PatternCatalog in catalog order, sums the
weights of the patterns of each category that match the text, and returns
exactly the first category whose accumulated score reaches 3, with
confidence min(score/10, 1) and an explanation counting the matching
patterns; a later category is never returned when an earlier one also
reaches the threshold (the List.find? characterisation). -/
theorem spec_C1 (content : String) :
    patternScan languagePatterns content =
      (languagePatterns.find? fun p => decide (3 ≤ catScore p.2 content)).map fun p =>
        ⟨p.1, .LANGUAGE, min ((catScore p.2 content : ℚ) / 10) 1,
          some ("Language patterns: " ++ toString (catMatchCount p.2 content) ++ " matches")⟩ :=
  patternScan_eq_find languagePatterns content

/-- C2 (amended): when the content read fails with an I/O error, the
content stage does not yield "no result": it returns the BINARY result
with confidence 0.8 and details "Non-text content", exactly as for
undecodable content; no exception escapes (the stage is a total
function). -/
theorem spec_C2 (fi : FileInfo) (h : fi.readOk = false) :
    language_tests fi = some ⟨.BINARY, .LANGUAGE, 0.8, some "Non-text content"⟩ := by
  simp [language_tests, read_file_safely, h]

/-- C2 counterexample: a concrete unreadable regular file is classified
BINARY by the content stage itself; the stage does not pass to the final
fallback, contradicting the claim that a read failure yields no result. -/
theorem spec_C2_cex :
    detect_file_type fiUnreadable = ⟨.BINARY, .LANGUAGE, 0.8, some "Non-text content"⟩ ∧
    language_tests fiUnreadable ≠ none := by
  constructor
  · with_unfolding_all decide
  · with_unfolding_all decide

/-- C2 witness: the amended statement evaluated on the unreadable
fixture. -/
theorem spec_C2_witness :
    language_tests fiUnreadable = some ⟨.BINARY, .LANGUAGE, 0.8, some "Non-text content"⟩ :=
  spec_C2 fiUnreadable rfl

/-- C4: every DetectionResult produced by classify has confidence strictly
greater than 0 and at most 1, in every stage and fallback branch; the
final UNKNOWN fallback is the only UNKNOWN-producing branch of the
fallback and carries confidence 0.1. -/
theorem spec_C4 :
    (∀ fi : FileInfo, 0 < (detect_file_type fi).confidence ∧
      (detect_file_type fi).confidence ≤ 1) ∧
    (∀ fi : FileInfo, (finalFallback fi).file_type = FileType.UNKNOWN →
      (finalFallback fi).confidence = 0.1) := by
  constructor
  · intro fi
    rcases detect_inventory fi with h | ⟨r, hr, h⟩ | ⟨r, hr, h⟩ | ⟨r, hr, h⟩ | h | h
    · rw [h]; norm_num
    · rw [h]; exact filesystem_tests_conf fi r hr
    · rw [h]; exact magic_tests_conf fi r hr
    · rw [h]; exact language_tests_conf fi r hr
    · rw [h]; norm_num
    · rw [h]; norm_num
  · intro fi
    simp only [finalFallback]
    split
    · split
      · intro hc
        exact absurd hc (by decide)
      · intro _
        rfl
    · intro _
      rfl

/-- C4 witness: the bounds at a concrete file, and the fallback confidence
at a concrete file whose fallback result is UNKNOWN. -/
theorem spec_C4_witness :
    (0 < (detect_file_type fiPrintHi).confidence ∧
      (detect_file_type fiPrintHi).confidence ≤ 1) ∧
    (finalFallback fiMissing).confidence = 0.1 :=
  ⟨spec_C4.1 fiPrintHi, spec_C4.2 fiMissing (by with_unfolding_all decide)⟩

/-- C9: classify never returns a result whose explanation is "Executable
file": the owner-executable rule only fires for the suffixes .exe, .dll,
.so, .app, none of which is a key of the ExtensionTable, so the branch is
unreachable; and no other branch produces that explanation. -/
theorem spec_C9 :
    (∀ fi : FileInfo, (detect_file_type fi).details ≠ some "Executable file") ∧
    extLookup ".exe" = none ∧ extLookup ".dll" = none ∧
    extLookup ".so" = none ∧ extLookup ".app" = none := by
  refine ⟨?_, by decide, by decide, by decide, by decide⟩
  intro fi
  rcases detect_inventory fi with h | ⟨r, hr, h⟩ | ⟨r, hr, h⟩ | ⟨r, hr, h⟩ | h | h
  · rw [h]
    simp
  · rw [h]
    rcases filesystem_tests_some fi r hr with h1 | h1 | h1 | ⟨ft, s, h1⟩ <;> subst h1
    · simp
    · simp
    · simp
    · intro hc
      exact append_ne_of_head3 "Extension: " "Executable file" s (by decide) (by decide)
        (Option.some_inj.mp hc)
  · rw [h]
    obtain ⟨s, ⟨ft, h1⟩ | h1 | h1⟩ := magic_tests_some fi r hr <;> subst h1 <;>
      intro hc <;>
      exact append_ne_of_head3 "Magic: " "Executable file" s (by decide) (by decide)
        (Option.some_inj.mp hc)
  · rw [h]
    rcases language_tests_some fi r hr with ⟨_, h1⟩ | ⟨ft, s, h1⟩ | ⟨ft, sc, n, hsc, h1⟩ |
      h1 | h1 | h1 | h1
    · subst h1; simp
    · subst h1
      intro hc
      exact append_ne_of_head3 "Shebang: " "Executable file" s (by decide) (by decide)
        (Option.some_inj.mp hc)
    · subst h1
      intro hc
      exact append2_ne_of_head3 "Language patterns: " "Executable file" (toString n)
        " matches" (by decide) (by decide) (Option.some_inj.mp hc)
    all_goals subst h1 <;> simp
  · rw [h]; simp
  · rw [h]; simp

/-- C8: the encoding cascade succeeds on every byte sequence because
latin-1 decodes every byte; consequently the content reader returns
no-text only on an OS read error, and the undecodable-content-as-binary
report "Non-text content" is unreachable for readable files. -/
theorem spec_C8 :
    (∀ bs : List Nat, (cascade bs).isSome = true) ∧
    (∀ fi : FileInfo, fi.readOk = true →
      (read_file_safely fi).isSome = true ∧
      ∀ r, language_tests fi = some r → r.details ≠ some "Non-text content") := by
  refine ⟨cascade_isSome, fun fi h => ⟨read_isSome fi h, ?_⟩⟩
  intro r hr
  rcases language_tests_some fi r hr with ⟨hread, _⟩ | ⟨ft, s, h1⟩ | ⟨ft, sc, n, hsc, h1⟩ |
    h1 | h1 | h1 | h1
  · exfalso
    have hi := read_isSome fi h
    rw [hread] at hi
    simp at hi
  · subst h1
    intro hc
    exact append_ne_of_head3 "Shebang: " "Non-text content" s (by decide) (by decide)
      (Option.some_inj.mp hc)
  · subst h1
    intro hc
    exact append2_ne_of_head3 "Language patterns: " "Non-text content" (toString n)
      " matches" (by decide) (by decide) (Option.some_inj.mp hc)
  all_goals subst h1 <;> simp

/-- C8 witness: the cascade and reader on a readable file whose bytes are
not valid UTF-8. -/
theorem spec_C8_witness :
    (read_file_safely fiLatin).isSome = true ∧
    ∀ r, language_tests fiLatin = some r → r.details ≠ some "Non-text content" :=
  spec_C8.2 fiLatin rfl

/-- C7: a path that does not exist short-circuits to UNKNOWN, stage
FILESYSTEM, confidence 1, explanation "File not found"; no stage function
is consulted and no exception is possible (classification is total). -/
theorem spec_C7 (fi : FileInfo) (h : pathExists fi = false) :
    detect_file_type fi = ⟨.UNKNOWN, .FILESYSTEM, 1, some "File not found"⟩ :=
  detect_not_found fi h

/-- C7 witness: the not-found fixture. -/
theorem spec_C7_witness :
    detect_file_type fiMissing = ⟨.UNKNOWN, .FILESYSTEM, 1, some "File not found"⟩ :=
  spec_C7 fiMissing rfl

/-- C10: a dangling symbolic link (the entry is a symlink whose target
does not exist) is reported as UNKNOWN / "File not found", never as
SYMLINK, because the existence check follows symlinks and runs before the
symlink rule. -/
theorem spec_C10 (fi : FileInfo) (hs : fi.isSymlink = true) (ht : fi.targetExists = false) :
    detect_file_type fi = ⟨.UNKNOWN, .FILESYSTEM, 1, some "File not found"⟩ ∧
    (detect_file_type fi).file_type ≠ FileType.SYMLINK := by
  have hp : pathExists fi = false := by simp [pathExists, hs, ht]
  refine ⟨detect_not_found fi hp, ?_⟩
  rw [detect_not_found fi hp]
  decide

/-- C10 witness: the dangling-symlink fixture. -/
theorem spec_C10_witness :
    detect_file_type fiDangling = ⟨.UNKNOWN, .FILESYSTEM, 1, some "File not found"⟩ ∧
    (detect_file_type fiDangling).file_type ≠ FileType.SYMLINK :=
  spec_C10 fiDangling rfl rfl

/-- C3 counterexample: the content print('hi') matches only the
print-call pattern of the Python set, weight 2, below the threshold 3, and
the concrete extensionless file with exactly that content is classified
TEXT, not PYTHON. -/
theorem spec_C3_cex :
    catScore pythonPatterns "print('hi')" = 2 ∧
    (detect_file_type fiPrintHi).file_type = FileType.TEXT := by
  constructor
  · with_unfolding_all decide
  · with_unfolding_all decide

/-- C3 (amended): a regular extensionless readable file with content
print('hi') and no signature service scores 2 (not at least 3) against the
Python pattern set, so the content stage falls through weighted scoring
and classify returns generic TEXT with confidence 0.6. -/
theorem spec_C3 (fi : FileInfo)
    (h1 : fi.entryExists = true) (h2 : fi.isSymlink = false) (h3 : fi.statOk = true)
    (h4 : fi.isDir = false) (h5 : fi.ownerExec = false) (h6 : fi.suffixes = [])
    (h7 : fi.bytes = strBytes "print('hi')") (h8 : fi.readOk = true)
    (h9 : fi.magic = none) :
    detect_file_type fi = ⟨.TEXT, .LANGUAGE, 0.6, none⟩ ∧
    catScore pythonPatterns "print('hi')" = 2 := by
  obtain ⟨e1, e2, e3, e4, e5, e6, e7, e8, e9, e10, e11, e12⟩ := fi
  dsimp only at h1 h2 h3 h4 h5 h6 h7 h8 h9
  subst h1 h2 h3 h4 h5 h6 h7 h8 h9
  cases e3 <;> cases e6 <;> cases e12 <;>
    exact ⟨by with_unfolding_all decide, by with_unfolding_all decide⟩

/-- C3 witness: the amended statement on the concrete fixture. -/
theorem spec_C3_witness :
    detect_file_type fiPrintHi = ⟨.TEXT, .LANGUAGE, 0.6, none⟩ ∧
    catScore pythonPatterns "print('hi')" = 2 :=
  spec_C3 fiPrintHi rfl rfl rfl rfl rfl rfl rfl rfl rfl

/-- C5: a readable regular file whose decoded first line is the python3
env shebang and whose name has no extension recognized by the
ExtensionTable is classified PYTHON by the content stage with confidence
0.9, the explanation echoing the shebang line; and the shebang table is
scanned in table order, the first interpreter substring contained in the
line winning (the List.find? characterisation). -/
theorem spec_C5 (fi : FileInfo) (c : String)
    (h1 : fi.entryExists = true) (h2 : fi.isSymlink = false) (h3 : fi.statOk = true)
    (h4 : fi.isDir = false) (h5 : fi.bytes ≠ []) (h6 : fi.magic = none)
    (hread : read_file_safely fi = some c)
    (hline : firstLine c = "#!/usr/bin/env python3")
    (hext1 : extLookup (pyLower (pathSuffix fi)) = none)
    (hext2 : extLookup (pyLower (String.join fi.suffixes)) = none)
    (hext3 : extLookup (pyLower (String.join (fi.suffixes.drop (fi.suffixes.length - 2)))) = none) :
    detect_file_type fi =
      ⟨.PYTHON, .LANGUAGE, 0.9, some "Shebang: #!/usr/bin/env python3"⟩ ∧
    (∀ line : String, shebangScan shebangMap line =
      (shebangMap.find? fun p => strContains line p.1).map fun p =>
        ⟨p.2, .LANGUAGE, 0.9, some ("Shebang: " ++ line)⟩) := by
  refine ⟨?_, fun line => shebangScan_eq_find shebangMap line⟩
  have hpe : pathExists fi = true := by simp [pathExists, h1, h2]
  have hb : ¬(fi.bytes.length = 0) := by simpa [List.length_eq_zero] using h5
  have hmulti : multiExtCheck fi = none := by
    simp only [multiExtCheck]
    split
    · rw [hext2, hext3]
    · rfl
  have hsingle : singleExtCheck fi = none := by
    simp only [singleExtCheck]
    rw [hext1]
  have hfs : filesystem_tests fi = none := by
    simp only [filesystem_tests]
    rw [if_neg (by simp [h3]), if_neg (by simp [h4]), if_neg (by simp [h2]), if_neg hb,
      execCheck_eq_none, hmulti, hsingle]
  have hmg : magic_tests fi = none := by
    simp only [magic_tests, h6]
  have hlang : language_tests fi =
      some ⟨.PYTHON, .LANGUAGE, 0.9, some "Shebang: #!/usr/bin/env python3"⟩ := by
    simp only [language_tests, hread]
    rw [hline]
    rfl
  simp only [detect_file_type, hpe, Bool.true_eq_false, if_false, hfs, hmg, hlang]

/-- C5 witness: the shebang fixture. -/
theorem spec_C5_witness :
    detect_file_type fiShebang =
      ⟨.PYTHON, .LANGUAGE, 0.9, some "Shebang: #!/usr/bin/env python3"⟩ ∧
    (∀ line : String, shebangScan shebangMap line =
      (shebangMap.find? fun p => strContains line p.1).map fun p =>
        ⟨p.2, .LANGUAGE, 0.9, some ("Shebang: " ++ line)⟩) :=
  spec_C5 fiShebang "#!/usr/bin/env python3\nx = 1\n" rfl rfl rfl rfl (by decide) rfl
    (by decide) (by decide) (by decide) (by decide) (by decide)

/-- C6: a non-empty regular non-executable file with the two suffixes
.tar and .gz is classified from the compound suffix at the filesystem
stage, confidence 0.8, explanation naming .tar.gz; and with two or more
suffixes the concatenation of all suffixes is consulted first, then the
concatenation of the last two, then (only when both miss) the single final
suffix. -/
theorem spec_C6 :
    (∀ fi : FileInfo, fi.entryExists = true → fi.isSymlink = false → fi.statOk = true →
      fi.isDir = false → fi.ownerExec = false → fi.suffixes = [".tar", ".gz"] →
      fi.bytes ≠ [] →
      detect_file_type fi = ⟨.GZIP, .FILESYSTEM, 0.8, some "Extension: .tar.gz"⟩) ∧
    (∀ fi : FileInfo, fi.statOk = true → fi.isDir = false → fi.isSymlink = false →
      fi.bytes ≠ [] → 1 < fi.suffixes.length →
      ((∀ ft, extLookup (pyLower (String.join fi.suffixes)) = some ft →
        filesystem_tests fi = some ⟨ft, .FILESYSTEM, 0.8,
          some ("Extension: " ++ pyLower (String.join fi.suffixes))⟩) ∧
       (extLookup (pyLower (String.join fi.suffixes)) = none →
        ∀ ft, extLookup (pyLower (String.join (fi.suffixes.drop (fi.suffixes.length - 2)))) =
            some ft →
        filesystem_tests fi = some ⟨ft, .FILESYSTEM, 0.8,
          some ("Extension: " ++
            pyLower (String.join (fi.suffixes.drop (fi.suffixes.length - 2))))⟩) ∧
       (extLookup (pyLower (String.join fi.suffixes)) = none →
        extLookup (pyLower (String.join (fi.suffixes.drop (fi.suffixes.length - 2)))) = none →
        ∀ ft, extLookup (pyLower (pathSuffix fi)) = some ft →
        filesystem_tests fi = some ⟨ft, .FILESYSTEM, 0.8,
          some ("Extension: " ++ pyLower (pathSuffix fi))⟩))) := by
  constructor
  · intro fi h1 h2 h3 h4 h5 h6 h7
    have hpe : pathExists fi = true := by simp [pathExists, h1, h2]
    have hb : ¬(fi.bytes.length = 0) := by simpa [List.length_eq_zero] using h7
    have hmulti : multiExtCheck fi =
        some ⟨.GZIP, .FILESYSTEM, 0.8, some "Extension: .tar.gz"⟩ := by
      simp only [multiExtCheck, h6]
      rfl
    have hfs : filesystem_tests fi =
        some ⟨.GZIP, .FILESYSTEM, 0.8, some "Extension: .tar.gz"⟩ := by
      simp only [filesystem_tests]
      rw [if_neg (by simp [h3]), if_neg (by simp [h4]), if_neg (by simp [h2]), if_neg hb,
        execCheck_eq_none, hmulti]
    simp only [detect_file_type, hpe, Bool.true_eq_false, if_false, hfs]
  · intro fi h3 h4 h2 h7 hlen
    have hb : ¬(fi.bytes.length = 0) := by simpa [List.length_eq_zero] using h7
    have hfs0 : filesystem_tests fi =
        (match multiExtCheck fi with
          | some r => some r
          | none => singleExtCheck fi) := by
      simp only [filesystem_tests]
      rw [if_neg (by simp [h3]), if_neg (by simp [h4]), if_neg (by simp [h2]), if_neg hb,
        execCheck_eq_none]
    refine ⟨?_, ?_, ?_⟩
    · intro ft hft
      have hmulti : multiExtCheck fi = some ⟨ft, .FILESYSTEM, 0.8,
          some ("Extension: " ++ pyLower (String.join fi.suffixes))⟩ := by
        simp only [multiExtCheck]
        rw [if_pos hlen, hft]
      rw [hfs0, hmulti]
    · intro he1 ft hft
      have hmulti : multiExtCheck fi = some ⟨ft, .FILESYSTEM, 0.8,
          some ("Extension: " ++
            pyLower (String.join (fi.suffixes.drop (fi.suffixes.length - 2))))⟩ := by
        simp only [multiExtCheck]
        rw [if_pos hlen, he1, hft]
      rw [hfs0, hmulti]
    · intro he1 he2 ft hft
      have hmulti : multiExtCheck fi = none := by
        simp only [multiExtCheck]
        rw [if_pos hlen, he1, he2]
      have hsingle : singleExtCheck fi = some ⟨ft, .FILESYSTEM, 0.8,
          some ("Extension: " ++ pyLower (pathSuffix fi))⟩ := by
        simp only [singleExtCheck]
        rw [hft]
      rw [hfs0, hmulti, hsingle]

/-- C6 witness: the archive.tar.gz fixture. -/
theorem spec_C6_witness :
    detect_file_type fiTarGz = ⟨.GZIP, .FILESYSTEM, 0.8, some "Extension: .tar.gz"⟩ :=
  spec_C6.1 fiTarGz rfl rfl rfl rfl rfl rfl (by decide)

end FFT
